import Mathlib

/-!
A shallow embedding of `src/JIG-Hettich-9133179.py`, a CadQuery script that
builds a drilling jig for the Hettich 9133179 hinge.  Each CadQuery builder
chain is embedded as a symbolic solid expression (`Shape`) wrapped in a
`Workplane` that also tracks the current sketch plane; the script's constants,
module-level solids, functions and `__main__` block are translated line by
line.  All numeric literals in the script are exact decimal fractions and are
only combined by `+`, `-`, `*`, `/`, so the rational model computes exactly
the values the script computes.
-/

namespace Jig

/-- Sketch planes a CadQuery workplane can be on: the three named base planes
and a plane obtained from a face selector such as the top face. -/
inductive Wp
  | XY
  | XZ
  | YZ
  | face (sel : String)
  deriving DecidableEq

/-- Symbolic CAD solids: one constructor per solid-producing CadQuery
operation used by the script. -/
inductive Shape
  | box (plane : Wp) (length width height : ℚ) (centered : Bool × Bool × Bool)
  | extrudedRect (plane : Wp) (a b dist : ℚ)
  | extrudedPoly (plane : Wp) (pts : List (ℚ × ℚ)) (dist : ℚ)
  | filletEdges (sel : String) (radius : ℚ) (s : Shape)
  | fusedRect (plane : Wp) (a b dist : ℚ) (s : Shape)
  | translate (x y z : ℚ) (s : Shape)
  | union (a b : Shape)
  | cut (a b : Shape)
  | slotCutBlind (plane : Wp) (length width angle depth : ℚ) (s : Shape)
  | slotCutThruAll (plane : Wp) (length width angle : ℚ) (s : Shape)
  deriving DecidableEq

/-- A CadQuery workplane holding a solid and the current sketch plane. -/
structure Workplane where
  plane : Wp
  solid : Shape
  deriving DecidableEq

/-- Models a fresh chain of the form plane, then box: the workplane
constructor followed by a box of the given dimensions and centering. -/
def wpBox (p : Wp) (l w h : ℚ) (c : Bool × Bool × Bool) : Workplane :=
  ⟨p, .box p l w h c⟩

/-- Models a fresh chain of the form plane, rect, extrude: a rectangle
sketched on an empty workplane and extruded into a prism. -/
def wpRectExtrude (p : Wp) (a b d : ℚ) : Workplane :=
  ⟨p, .extrudedRect p a b d⟩

/-- Models a fresh chain of the form plane, polyline, close, extrude: a closed
polygon sketched on an empty workplane and extruded into a prism. -/
def wpPolyExtrude (p : Wp) (pts : List (ℚ × ℚ)) (d : ℚ) : Workplane :=
  ⟨p, .extrudedPoly p pts d⟩

/-- Models the translate call: moves the whole solid by the given vector. -/
def Workplane.translate (w : Workplane) (x y z : ℚ) : Workplane :=
  { w with solid := .translate x y z w.solid }

/-- Models a faces call: selects a face and makes it the sketch plane. -/
def Workplane.faces (w : Workplane) (sel : String) : Workplane :=
  { w with plane := .face sel }

/-- Models a workplane call after a face selection: sketching continues on
the selected face, which `faces` already recorded. -/
def Workplane.workplaneOn (w : Workplane) : Workplane := w

/-- Models an edges-then-fillet pair: fillets the selected edges. -/
def Workplane.edgesFillet (w : Workplane) (sel : String) (r : ℚ) : Workplane :=
  { w with solid := .filletEdges sel r w.solid }

/-- A pending rectangle sketched on a workplane that already holds a solid. -/
structure RectSketch where
  base : Workplane
  a : ℚ
  b : ℚ
  deriving DecidableEq

/-- Models a rect call on a workplane holding a solid: a pending sketch. -/
def Workplane.rect (w : Workplane) (a b : ℚ) : RectSketch := ⟨w, a, b⟩

/-- Models extrude on a pending rectangle: the new prism is fused with the
existing solid (CadQuery's default combine behaviour). -/
def RectSketch.extrude (r : RectSketch) (d : ℚ) : Workplane :=
  { r.base with solid := .fusedRect r.base.plane r.a r.b d r.base.solid }

/-- A pending 2D slot sketched on a workplane. -/
structure SlotSketch where
  base : Workplane
  length : ℚ
  width : ℚ
  angle : ℚ
  deriving DecidableEq

/-- Models a slot2D call: a pending slot sketch of the given length, width
and angle. -/
def Workplane.slot2D (w : Workplane) (l wd ang : ℚ) : SlotSketch := ⟨w, l, wd, ang⟩

/-- Models cutBlind on a pending slot: cuts the slot to the given depth. -/
def SlotSketch.cutBlind (s : SlotSketch) (d : ℚ) : Workplane :=
  { s.base with solid := .slotCutBlind s.base.plane s.length s.width s.angle d s.base.solid }

/-- Models cutThruAll on a pending slot: cuts the slot through the whole
solid. -/
def SlotSketch.cutThruAll (s : SlotSketch) : Workplane :=
  { s.base with solid := .slotCutThruAll s.base.plane s.length s.width s.angle s.base.solid }

/-- Models the union call: boolean union of the two solids. -/
def Workplane.union (w o : Workplane) : Workplane :=
  { w with solid := .union w.solid o.solid }

/-- Models the subtraction operator on workplanes: boolean difference. -/
def Workplane.sub (w o : Workplane) : Workplane :=
  { w with solid := .cut w.solid o.solid }

/-! ### The script's dimension constants (lines 15 to 30, all in mm) -/

def JIG_PLANE_DEPTH : ℚ := 150
def JIG_PLANE_THICKNESS : ℚ := 10

def BOARD_THICKNESS : ℚ := 28
def BOARD_WIDTH : ℚ := 100
def BOARD_LENGTH : ℚ := 200

def HINGE_DIAMETER : ℚ := 13.5
def HINGE_LENGTH : ℚ := 61.5
def HINGE_LENGTH_INNER : ℚ := 31.7
def HINGE_COUNTER_DISTANCE : ℚ := 46.5

def HINGE_DEPTH : ℚ := 6.5
def HINGE_DEPTH_INNER : ℚ := 18.5

def BIT_CUT_LENGTH : ℚ := 25.4

/-! ### Module-level solids and functions (lines 33 to 110) -/

/-- Lines 33 to 37: the step-1 board, a box on the XZ plane translated down
by the board width. -/
def board_step1 : Workplane :=
  (wpBox .XZ BOARD_LENGTH BOARD_WIDTH BOARD_THICKNESS (true, false, true)).translate 0 0 (-BOARD_WIDTH)

/-- Lines 40 to 45: the step-2 board, the step-1 board with a hinge slot cut
blind into its top face. -/
def board_step2 : Workplane :=
  ((((board_step1.faces (">Z")).workplaneOn).slot2D HINGE_LENGTH HINGE_DIAMETER 0).cutBlind (-HINGE_DEPTH))

/-- Lines 48 to 91: build the jig: base plate with filleted vertical edges,
wall extruded from the bottom face, translated up by the top thickness, two
triangular ribs unioned on, and finally the board subtracted. -/
def jig (top_thickness : ℚ) (board : Workplane) : Workplane :=
  let width : ℚ := 150
  let height : ℚ := 100
  let thickness : ℚ := BOARD_THICKNESS + 10
  let jig_base :=
    (((((wpRectExtrude .XY width JIG_PLANE_DEPTH (-JIG_PLANE_THICKNESS)).edgesFillet ("|Z") 25).faces ("<Z")).rect width thickness).extrude (-height)).translate 0 0 top_thickness
  let rib_width := JIG_PLANE_DEPTH * 0.75
  let rib_depth : ℚ := 10
  let rib_height := rib_width * 0.75
  let rib_x_offset := width / 2 - rib_width / 2
  let rib := wpPolyExtrude .YZ [(-(rib_width / 2), 0), (rib_width / 2, 0), (0, -rib_height)] (-rib_depth)
  let jig_base := jig_base.union (rib.translate rib_x_offset 0 top_thickness)
  let jig_base := jig_base.union (rib.translate (-rib_x_offset) 0 top_thickness)
  let jig_base := jig_base.sub board
  jig_base

/-- Lines 94 to 107: cut the through slot for the hinge opening, a 2D slot of
the given length and the hinge diameter, cut through the whole solid. -/
def hinge_top (self : Workplane) (length : ℚ) : Workplane :=
  (self.slot2D length HINGE_DIAMETER 0).cutThruAll

/-! ### The `__main__` block (lines 113 to 144) -/

/-- One object added to a CadQuery assembly: its name, the workplane object,
and an optional colour. -/
structure Part where
  name : String
  obj : Workplane
  color : Option String
  deriving DecidableEq

/-- A CadQuery assembly: an optional planar location offset and the parts in
the order they were added. -/
structure Assembly where
  loc : Option (ℚ × ℚ)
  parts : List Part
  deriving DecidableEq

/-- Line 114: top thickness for the step-1 jig. -/
def TOP_THICKNESS_STEP_1 : ℚ := BIT_CUT_LENGTH - HINGE_DEPTH + 10

/-- Lines 115 to 116: the step-1 jig with the through slot cut on its top
face. -/
def jig_model : Workplane :=
  hinge_top (((jig TOP_THICKNESS_STEP_1 board_step1).faces (">Z")).workplaneOn) HINGE_LENGTH

/-- Lines 118 to 122: the step-1 assembly of jig and board. -/
def asm_step1 : Assembly :=
  ⟨none, [⟨"Jig", jig_model, none⟩, ⟨"Board", board_step1, some ("burlywood1")⟩]⟩

/-- Lines 124 to 126: top thickness for the step-2 jig. -/
def TOP_THICKNESS_STEP_2 : ℚ := BIT_CUT_LENGTH - HINGE_DEPTH_INNER + 10

/-- Lines 128 to 129: the step-2 jig with the inner through slot cut on its
top face. -/
def jig_model_step2 : Workplane :=
  hinge_top (((jig TOP_THICKNESS_STEP_2 board_step2).faces (">Z")).workplaneOn) HINGE_LENGTH_INNER

/-- Lines 131 to 135: the step-2 assembly, offset by the plane depth plus a
gap. -/
def asm_step2 : Assembly :=
  ⟨some (0, JIG_PLANE_DEPTH + 20), [⟨"Jig", jig_model_step2, none⟩, ⟨"Board", board_step2, some ("burlywood1")⟩]⟩

/-- Externally observable effects of running the script: the stdout line
printing the step-2 top thickness, a viewer preview call, and an export-file
write. -/
inductive Effect
  | printTopThickness (value : ℚ)
  | showAssembly (name : String) (a : Assembly)
  | exportFile (filename : String) (model : Workplane)
  deriving DecidableEq

/-- The effects of the `__main__` block in program order: the print on line
127, the two viewer calls on lines 137 to 138, and the four exports on lines
141 to 144. -/
def mainEffects : List Effect :=
  [ .printTopThickness TOP_THICKNESS_STEP_2,
    .showAssembly ("Step 1") asm_step1,
    .showAssembly ("Step 2") asm_step2,
    .exportFile ("jig-Hettich-9133179.stl") jig_model,
    .exportFile ("jig-Hettich-9133179.step") jig_model,
    .exportFile ("jig-Hettich-9133179_step2.stl") jig_model_step2,
    .exportFile ("jig-Hettich-9133179_step2.step") jig_model_step2 ]

/-- The export-file effects of an effect list, in order. -/
def exportsOf (es : List Effect) : List (String × Workplane) :=
  es.filterMap fun e =>
    match e with
    | .exportFile f m => some (f, m)
    | _ => none

/-- The viewer preview calls of an effect list, in order. -/
def showsOf (es : List Effect) : List (String × Assembly) :=
  es.filterMap fun e =>
    match e with
    | .showAssembly n a => some (n, a)
    | _ => none

/-! ### Module loading and the shared class attribute (line 110) -/

/-- The piece of interpreter state the script mutates outside its own
namespace: whether the shared Workplane class carries the hinge_top
attribute. -/
structure PyState where
  workplaneHasHingeTop : Bool
  deriving DecidableEq

/-- Before the module is loaded the Workplane class has no hinge_top
attribute. -/
def initialState : PyState := ⟨false⟩

/-- Line 110: the assignment of hinge_top onto the shared Workplane class. -/
def setHingeTopAttr (st : PyState) : PyState :=
  { st with workplaneHasHingeTop := true }

/-- Importing the module executes the top level, including line 110, which
sits outside the main guard. -/
def importModule : PyState := setHingeTopAttr initialState

/-- Executing the file: the top level always runs; the body of the main
guard produces its effects only when the module runs as a script. -/
def runModule (isMain : Bool) : PyState × List Effect :=
  (importModule, if isMain then mainEffects else [])

/-- Python attribute lookup: a method absent on the instance is found on the
class, so any Workplane instance whatsoever sees hinge_top once the class
attribute is set. -/
def instanceHasHingeTop (st : PyState) (_w : Workplane) : Bool :=
  st.workplaneHasHingeTop

/-- Running the script from the command line: the script never reads its
argument vector or the environment, so both parameters are ignored. -/
def runScript (_argv : List String) (_env : List (String × String)) : PyState × List Effect :=
  runModule true

/-! ### Kernel errors

The script performs no validation and catches no exceptions; every
construction step is a call into the CAD kernel, which may raise.  A kernel
oracle assigns to each construction step either success or an error value,
and `evalKernel` replays a solid expression against the oracle the way the
Python call chain would: children first, then the node's own operation, the
first error aborting the run unchanged. -/

/-- The kernel construction steps a solid expression performs, in the order
the Python call chain performs them: children first, then the node's own
operation. -/
def Shape.steps : Shape → List Shape
  | s@(.box ..) => [s]
  | s@(.extrudedRect ..) => [s]
  | s@(.extrudedPoly ..) => [s]
  | s@(.filletEdges _ _ c) => c.steps ++ [s]
  | s@(.fusedRect _ _ _ _ c) => c.steps ++ [s]
  | s@(.translate _ _ _ c) => c.steps ++ [s]
  | s@(.union a b) => a.steps ++ b.steps ++ [s]
  | s@(.cut a b) => a.steps ++ b.steps ++ [s]
  | s@(.slotCutBlind _ _ _ _ _ c) => c.steps ++ [s]
  | s@(.slotCutThruAll _ _ _ _ c) => c.steps ++ [s]

/-- Run a sequence of kernel steps against the oracle: the first step the
oracle fails aborts the run with the oracle's error, unchanged, as an
uncaught Python exception would. -/
def runSteps {E : Type} (κ : Shape → Option E) : List Shape → Except E Unit
  | [] => .ok ()
  | t :: ts =>
    match κ t with
    | some e => .error e
    | none => runSteps κ ts

/-- Replay a whole solid expression against a kernel oracle. -/
def evalKernel {E : Type} (κ : Shape → Option E) (s : Shape) : Except E Unit :=
  runSteps κ s.steps

/-- Any error produced by running kernel steps is an error the oracle raised
on one of those steps, unchanged. -/
theorem runSteps_error {E : Type} (κ : Shape → Option E) :
    ∀ l : List Shape, ∀ e : E, runSteps κ l = .error e → ∃ t ∈ l, κ t = some e := by
  intro l
  induction l with
  | nil => intro e h; exact absurd h (by simp [runSteps])
  | cons t ts ih =>
    intro e h
    rw [runSteps] at h
    rcases hk : κ t with _ | e0 <;> rw [hk] at h
    · obtain ⟨u, hu, hue⟩ := ih e h
      exact ⟨u, List.mem_cons_of_mem t hu, hue⟩
    · refine ⟨t, List.mem_cons_self t ts, ?_⟩
      rw [hk]
      injection h with h0
      rw [h0]

/-- Any error produced by replaying a solid expression is an error the
oracle raised on one of its construction steps, unchanged. -/
theorem evalKernel_error {E : Type} (κ : Shape → Option E) (s : Shape) (e : E)
    (h : evalKernel κ s = .error e) : ∃ t ∈ s.steps, κ t = some e :=
  runSteps_error κ s.steps e h

/-- When no kernel step fails, running any step sequence succeeds. -/
theorem runSteps_ok {E : Type} (κ : Shape → Option E) (hκ : ∀ t, κ t = none) :
    ∀ l : List Shape, runSteps κ l = .ok () := by
  intro l
  induction l with
  | nil => rw [runSteps]
  | cons t ts ih => rw [runSteps, hκ t]; exact ih

/-- When no kernel step fails, replaying any solid expression succeeds. -/
theorem evalKernel_ok {E : Type} (κ : Shape → Option E) (hκ : ∀ t, κ t = none)
    (s : Shape) : evalKernel κ s = .ok () :=
  runSteps_ok κ hκ s.steps

/-! ### The claims -/

/-- Claim C1: for every top thickness and every board solid, `jig` returns
exactly this composition: a rectangular 150 x 150 base plate extruded down
10 with its vertical edges filleted at radius 25, a wall of cross-section
150 x (28 + 10) extruded 100 down from the plate's bottom face, the result
translated up by the top thickness, unioned with an identical triangular rib
at x = 18.75 and then at x = -18.75, and only after both unions is the board
subtracted to form the cavity. -/
theorem C1_jig_is_exact_composition (top_thickness : ℚ) (board : Workplane) :
    jig top_thickness board =
      (((((((((wpRectExtrude .XY 150 150 (-10)).edgesFillet ("|Z") 25).faces
        ("<Z")).rect 150 (28 + 10)).extrude (-100)).translate 0 0
        top_thickness).union ((wpPolyExtrude .YZ
        [(-56.25, 0), (56.25, 0), (0, -84.375)] (-10)).translate 18.75 0
        top_thickness)).union ((wpPolyExtrude .YZ
        [(-56.25, 0), (56.25, 0), (0, -84.375)] (-10)).translate (-18.75) 0
        top_thickness)).sub board) := by
  simp only [jig, Workplane.sub, Workplane.union, Workplane.translate,
    RectSketch.extrude, Workplane.rect, Workplane.faces, Workplane.edgesFillet,
    wpRectExtrude, wpPolyExtrude, JIG_PLANE_DEPTH, JIG_PLANE_THICKNESS,
    BOARD_THICKNESS]
  norm_num

/-- Claim C2: `hinge_top` cuts a 2D slot of the given length and the hinge
diameter 13.5 through the whole solid; the step-1 jig's top-face through
slot is 61.5 x 13.5 and the step-2 jig's is 31.7 x 13.5, each cut on the
top face. -/
theorem C2_hinge_top_slot (w : Workplane) (L : ℚ) :
    hinge_top w L = ⟨w.plane, .slotCutThruAll w.plane L HINGE_DIAMETER 0 w.solid⟩
  ∧ jig_model.solid =
      .slotCutThruAll (.face (">Z")) 61.5 13.5 0 (jig TOP_THICKNESS_STEP_1 board_step1).solid
  ∧ jig_model_step2.solid =
      .slotCutThruAll (.face (">Z")) 31.7 13.5 0 (jig TOP_THICKNESS_STEP_2 board_step2).solid
  ∧ HINGE_LENGTH = 61.5 ∧ HINGE_LENGTH_INNER = 31.7 ∧ HINGE_DIAMETER = 13.5 :=
  ⟨rfl, rfl, rfl, rfl, rfl, rfl⟩

/-- Claim C3: the step-1 board is a 200 x 100 x 28 box on the XZ plane
translated down by the board width, and the step-2 board is exactly the
step-1 board with one additional blind slot cut, 61.5 x 13.5 to depth 6.5,
into its top face, and nothing else. -/
theorem C3_boards :
    board_step1 = (wpBox .XZ 200 100 28 (true, false, true)).translate 0 0 (-100)
  ∧ board_step2 = ⟨.face (">Z"), .slotCutBlind (.face (">Z")) 61.5 13.5 0 (-6.5) board_step1.solid⟩
  ∧ BOARD_LENGTH = 200 ∧ BOARD_WIDTH = 100 ∧ BOARD_THICKNESS = 28 ∧ HINGE_DEPTH = 6.5 :=
  ⟨rfl, rfl, rfl, rfl, rfl, rfl⟩

/-- Claim C4: a script run exports exactly four files, one STL and one STEP
for each jig variant, under the stated names, and issues one viewer preview
call per variant's assembly. -/
theorem C4_exports_and_previews :
    exportsOf mainEffects =
      [(("jig-Hettich-9133179.stl"), jig_model),
       (("jig-Hettich-9133179.step"), jig_model),
       (("jig-Hettich-9133179_step2.stl"), jig_model_step2),
       (("jig-Hettich-9133179_step2.step"), jig_model_step2)]
  ∧ showsOf mainEffects = [(("Step 1"), asm_step1), (("Step 2"), asm_step2)]
  ∧ (exportsOf mainEffects).length = 4 :=
  ⟨rfl, rfl, rfl⟩

/-- Claim C5, counterexample: writing the export files is not the run's only
externally observable effect; the run also prints the step-2 top thickness
to stdout and issues viewer preview calls. -/
theorem C5_counterexample :
    Effect.printTopThickness TOP_THICKNESS_STEP_2 ∈ mainEffects
  ∧ Effect.showAssembly ("Step 1") asm_step1 ∈ mainEffects :=
  ⟨List.mem_cons_self _ _, List.mem_cons_of_mem _ (List.mem_cons_self _ _)⟩

/-- Claim C5 as amended: each run recomputes the solids from the constants,
and its externally observable effects are exactly one stdout line printing
the step-2 top thickness 16.9, one viewer preview call per variant, and the
four export-file writes, in that order; a mere import produces none of
them. -/
theorem C5_amended_effects :
    (runModule true).2 = mainEffects
  ∧ (runModule false).2 = []
  ∧ mainEffects =
      [ .printTopThickness (16.9 : ℚ),
        .showAssembly ("Step 1") asm_step1,
        .showAssembly ("Step 2") asm_step2,
        .exportFile ("jig-Hettich-9133179.stl") jig_model,
        .exportFile ("jig-Hettich-9133179.step") jig_model,
        .exportFile ("jig-Hettich-9133179_step2.stl") jig_model_step2,
        .exportFile ("jig-Hettich-9133179_step2.step") jig_model_step2 ] := by
  refine ⟨rfl, rfl, ?_⟩
  have h2 : TOP_THICKNESS_STEP_2 = (16.9 : ℚ) := by
    norm_num [TOP_THICKNESS_STEP_2, BIT_CUT_LENGTH, HINGE_DEPTH_INNER]
  rw [mainEffects, h2]

/-- Claim C6: the script reads no command-line arguments, no environment and
no other input, so any two runs, whatever their arguments and environment,
produce identical interpreter states and identical effects, in particular
identical exported content. -/
theorem C6_input_independent (argv1 argv2 : List String)
    (env1 env2 : List (String × String)) :
    runScript argv1 env1 = runScript argv2 env2
  ∧ (runScript argv1 env1).2 = mainEffects :=
  ⟨rfl, rfl⟩

/-- Claim C7: the script performs no validation and catches nothing: any
error a kernel step raises while building `jig`, `hinge_top` or the two
exported models surfaces unchanged as the result, and when no kernel step
fails the models build without error. -/
theorem C7_errors_propagate :
    (∀ (E : Type) (κ : Shape → Option E) (t : ℚ) (b : Workplane) (e : E),
        evalKernel κ (jig t b).solid = .error e →
          ∃ s ∈ Shape.steps (jig t b).solid, κ s = some e)
  ∧ (∀ (E : Type) (κ : Shape → Option E) (w : Workplane) (L : ℚ) (e : E),
        evalKernel κ (hinge_top w L).solid = .error e →
          ∃ s ∈ Shape.steps (hinge_top w L).solid, κ s = some e)
  ∧ (∀ (E : Type) (κ : Shape → Option E) (e : E),
        evalKernel κ jig_model.solid = .error e → ∃ s, κ s = some e)
  ∧ (∀ (E : Type) (κ : Shape → Option E) (e : E),
        evalKernel κ jig_model_step2.solid = .error e → ∃ s, κ s = some e)
  ∧ (∀ (E : Type) (κ : Shape → Option E), (∀ s, κ s = none) →
        evalKernel κ jig_model.solid = .ok ()
      ∧ evalKernel κ jig_model_step2.solid = .ok ()) := by
  refine ⟨?_, ?_, ?_, ?_, ?_⟩
  · intro E κ t b e h
    exact evalKernel_error κ _ e h
  · intro E κ w L e h
    exact evalKernel_error κ _ e h
  · intro E κ e h
    obtain ⟨s, _, hs⟩ := evalKernel_error κ _ e h
    exact ⟨s, hs⟩
  · intro E κ e h
    obtain ⟨s, _, hs⟩ := evalKernel_error κ _ e h
    exact ⟨s, hs⟩
  · intro E κ hκ
    exact ⟨evalKernel_ok κ hκ _, evalKernel_ok κ hκ _⟩

/-- Claim C7, witness: under an oracle that fails every step with error 0
the step-1 model's build surfaces error 0 from some step, and under an
oracle that never fails both models build without error. -/
theorem C7_errors_propagate_witness :
    (∃ s, (fun _ : Shape => some (0 : ℕ)) s = some 0)
  ∧ evalKernel (fun _ : Shape => (none : Option ℕ)) jig_model.solid = .ok ()
  ∧ evalKernel (fun _ : Shape => (none : Option ℕ)) jig_model_step2.solid = .ok () :=
  ⟨C7_errors_propagate.2.2.1 ℕ (fun _ => some 0) 0 rfl,
   C7_errors_propagate.2.2.2.2 ℕ (fun _ => none) (fun _ => rfl)⟩

/-- Claim C8: the step-1 top thickness is 25.4 - 6.5 + 10 = 28.9 and the
step-2 top thickness, the value the run prints, is 25.4 - 18.5 + 10 = 16.9,
so the step-2 top plate sits strictly lower, by exactly 18.5 - 6.5 = 12. -/
theorem C8_top_thicknesses :
    TOP_THICKNESS_STEP_1 = BIT_CUT_LENGTH - HINGE_DEPTH + 10
  ∧ TOP_THICKNESS_STEP_1 = 28.9
  ∧ TOP_THICKNESS_STEP_2 = BIT_CUT_LENGTH - HINGE_DEPTH_INNER + 10
  ∧ TOP_THICKNESS_STEP_2 = 16.9
  ∧ Effect.printTopThickness TOP_THICKNESS_STEP_2 ∈ mainEffects
  ∧ TOP_THICKNESS_STEP_2 < TOP_THICKNESS_STEP_1
  ∧ TOP_THICKNESS_STEP_1 - TOP_THICKNESS_STEP_2 = HINGE_DEPTH_INNER - HINGE_DEPTH
  ∧ HINGE_DEPTH_INNER - HINGE_DEPTH = 12 := by
  refine ⟨rfl, ?_, rfl, ?_, List.mem_cons_self _ _, ?_, ?_, ?_⟩ <;>
    norm_num [TOP_THICKNESS_STEP_1, TOP_THICKNESS_STEP_2, BIT_CUT_LENGTH,
      HINGE_DEPTH, HINGE_DEPTH_INNER]

/-- Claim C9: `jig` leaves its board argument intact: its result is a
boolean difference whose right operand is the board exactly as given, and
each assembly carries the very board solid built at module load. -/
theorem C9_board_not_mutated :
    (∀ (t : ℚ) (b : Workplane), ∃ base : Workplane, jig t b = base.sub b)
  ∧ ((asm_step1.parts.filter fun p => p.name == ("Board")).map Part.obj = [board_step1])
  ∧ ((asm_step2.parts.filter fun p => p.name == ("Board")).map Part.obj = [board_step2]) :=
  ⟨fun _ _ => ⟨_, rfl⟩, rfl, rfl⟩

/-- Claim C10: merely importing the module sets the hinge_top attribute on
the shared Workplane class, so afterwards every Workplane instance sees the
method, while an import alone produces none of the run's effects; the
attribute was absent before the import and the assignment runs whether or
not the module is the main script. -/
theorem C10_import_installs_hinge_top :
    importModule.workplaneHasHingeTop = true
  ∧ initialState.workplaneHasHingeTop = false
  ∧ (∀ w : Workplane, instanceHasHingeTop importModule w = true)
  ∧ (runModule false).1 = importModule
  ∧ (runModule false).2 = []
  ∧ (runModule true).1 = importModule :=
  ⟨rfl, rfl, fun _ => rfl, rfl, rfl, rfl⟩

end Jig
